import Mathlib

/-!
Verification of the external-data caching and media-proxy layer of the
AAAI-Scholar-Analyzer repository (directory `website/data-proxy`).

The Python services are shallowly embedded as pure Lean functions over
explicit state records:

* file-system cache state is an association list from keys to records
  carrying a modification time (`mtime`, seconds) and content;
* "now" is passed explicitly (`datetime.now().timestamp()` in the source);
* network calls are oracles: the upstream outcome for call number `n` is
  supplied as input, and each run result carries a count of the upstream
  calls actually performed;
* Python exceptions (`fastapi.HTTPException`) are `Except` errors carrying
  the HTTP status code and detail string.

Each embedded definition keeps the name of the Python function it models
(`services/cache_service.py`, `services/aminer_service.py`,
`services/avatar_service.py`, `services/email_service.py`,
`config.py`, `routes/aminer.py`).
-/

/-- An HTTP error raised via `fastapi.HTTPException`: status code plus
detail string. -/
structure HErr where
  status : Nat
  detail : String
  deriving Repr, DecidableEq

/- ----------------------------------------------------------------
Cache Store (`services/cache_service.py`)
---------------------------------------------------------------- -/

/-- From `cache_service.is_cache_valid(cache_path, ttl_seconds)`:
true iff the file exists and `now - mtime < ttl`.  The file is modeled by
its optional modification time (`none` = file does not exist).  Python
computes the age as a float and compares `< ttl`; with `Nat` subtraction
an `mtime` in the future gives age `0 < ttl`, matching the Python
comparison of a negative age. -/
def is_cache_valid (mtime? : Option Nat) (now ttl : Nat) : Bool :=
  match mtime? with
  | none => false
  | some m => now - m < ttl

/- ----------------------------------------------------------------
Detail Resolver data model (`services/aminer_service.py`)

The upstream AMiner web response is modeled structurally: optional JSON
keys become `Option` fields.  `none` models both a missing key and (for
fields read through Python truthiness) a falsy value; where the
distinction matters the embedding tests emptiness explicitly.
---------------------------------------------------------------- -/

/-- The fields of `data["profile"]` read by the service code. -/
structure AProfile where
  bio? : Option String := none
  bio_zh? : Option String := none
  edu? : Option String := none
  edu_zh? : Option String := none
  position? : Option String := none
  position_zh? : Option String := none
  affiliation? : Option String := none
  org_zh? : Option String := none
  homepage? : Option String := none
  phone? : Option String := none
  email? : Option String := none
  address? : Option String := none
  fax? : Option String := none
  deriving Repr, DecidableEq

/-- One entry of `links["resource"]["resource_link"]`. -/
structure AResourceLink where
  id? : Option String := none
  url? : Option String := none
  deriving Repr, DecidableEq

/-- The fields of `data["links"]` read by `extract_enriched_fields`. -/
structure ALinks where
  gs_url? : Option String := none
  resource_link : List AResourceLink := []
  deriving Repr, DecidableEq

/-- The fields of `data["indices"]` copied by `extract_enriched_fields`.
Numeric index values are modeled as optional integers (`none` = absent
key, mirroring `dict.get`). -/
structure AIndices where
  hindex? : Option Int := none
  gindex? : Option Int := none
  citations? : Option Int := none
  pubs? : Option Int := none
  activity? : Option Int := none
  diversity? : Option Int := none
  sociability? : Option Int := none
  newStar? : Option Int := none
  risingStar? : Option Int := none
  deriving Repr, DecidableEq

/-- One person object: `web_response["data"][i]["data"][j]`.  Only the
keys the service code reads are modeled. -/
structure APerson where
  id? : Option String := none
  name? : Option String := none
  name_zh? : Option String := none
  avatar? : Option String := none
  profile? : Option AProfile := none
  links? : Option ALinks := none
  indices? : Option AIndices := none
  tags? : Option (List String) := none
  tags_score? : Option (List Int) := none
  num_viewed? : Option Int := none
  num_followed? : Option Int := none
  num_upvoted? : Option Int := none
  deriving Repr, DecidableEq

/-- One item of `web_response["data"]`: carries the `succeed` flag the
error check reads, the error `code`, and its own `data` list of persons. -/
structure AWebItem where
  succeed? : Option Bool := none
  code? : Option String := none
  data? : Option (List APerson) := none
  deriving Repr, DecidableEq

/-- The raw AMiner web API response body, as far as the service reads it:
the optional top-level `data` list. -/
structure AWebResponse where
  data? : Option (List AWebItem) := none
  deriving Repr, DecidableEq

/-- Python truthiness of `Optional[str]`: present and non-empty. -/
def truthyStr (s? : Option String) : Option String :=
  match s? with
  | some s => if s = "" then none else some s
  | none => none

/-- The `enriched` bag built by `extract_enriched_fields`.  Keys set
conditionally in the Python dict become `Option` fields; `aminer_stats`
is always set, which is why the resulting dict is never empty. -/
structure AEnriched where
  google_scholar? : Option String := none
  dblp? : Option String := none
  homepage? : Option String := none
  phone? : Option String := none
  avatar_aminer? : Option String := none
  indices? : Option AIndices := none
  research_tags? : Option (List String) := none
  research_tags_scores? : Option (List Int) := none
  num_viewed : Int := 0
  num_followed : Int := 0
  num_upvoted : Int := 0
  address? : Option String := none
  fax? : Option String := none
  deriving Repr, DecidableEq

/-- The normalized `data` object produced by
`convert_web_api_to_official_format`. -/
structure OfficialData where
  id : String
  name : String
  name_zh : String
  bio : String
  bio_zh : String
  edu : String
  edu_zh : String
  position : String
  position_zh : String
  orgs : List String
  org_zhs : List String
  honor : List String
  award : String
  create_time : String
  update_time : String
  year? : Option Int
  domain : String
  person_id : String
  deriving Repr, DecidableEq

/-- The official-format response dict cached and returned by the Detail
Resolver.  `raw_response?` models the optional `raw_response` key that
`email_service` probes with `"raw_response" in cached_person_data`; the
code in `aminer_service.py` never writes it, so records produced by
`get_scholar_detail` always have `raw_response? = none` (a pre-existing
cache file written by other software may carry it). -/
structure Official where
  code : Nat
  success : Bool
  msg : String
  data : OfficialData
  log_id : String
  enriched? : Option AEnriched
  raw_response? : Option AWebResponse
  deriving Repr, DecidableEq

/-- From `convert_web_api_to_official_format`: digs
`web_response["data"][0]["data"][0]`; a `KeyError`/`IndexError`/
`TypeError` on that path becomes HTTP 500.  `log_id` is
`custom_<uuid4 fragment>` in Python; the fresh fragment is passed in as
the `logId` oracle. -/
def convert_web_api_to_official_format (w : AWebResponse) (logId : String) :
    Except HErr Official :=
  match w.data? with
  | some (item0 :: _) =>
    match item0.data? with
    | some (p :: _) =>
      let profile := p.profile?.getD {}
      Except.ok
        { code := 200
          success := true
          msg := ""
          data :=
            { id := p.id?.getD ""
              name := p.name?.getD ""
              name_zh := p.name_zh?.getD ""
              bio := profile.bio?.getD ""
              bio_zh := profile.bio_zh?.getD ""
              edu := profile.edu?.getD ""
              edu_zh := profile.edu_zh?.getD ""
              position := profile.position?.getD ""
              position_zh := profile.position_zh?.getD ""
              orgs := match truthyStr profile.affiliation? with
                      | some a => [a]
                      | none => []
              org_zhs := match truthyStr profile.org_zh? with
                         | some o => [o]
                         | none => []
              honor := []
              award := ""
              create_time := ""
              update_time := ""
              year? := none
              domain := ""
              person_id := p.id?.getD "" }
          log_id := "custom_" ++ logId
          enriched? := none
          raw_response? := none }
    | _ => Except.error ⟨500, "Invalid AMiner API response format"⟩
  | _ => Except.error ⟨500, "Invalid AMiner API response format"⟩

/-- The `for resource in links...resource_link` loop of
`extract_enriched_fields`: the last entry with `id == "dblp"` and a
truthy `url` wins (each match overwrites `enriched["dblp"]`). -/
def dblpOfLinks (rs : List AResourceLink) : Option String :=
  rs.foldl
    (fun acc r =>
      if r.id? = some "dblp" then
        match truthyStr r.url? with
        | some u => some u
        | none => acc
      else acc)
    none

/-- From `extract_enriched_fields`: returns `none` when the
`data[0].data[0]` path fails (the Python function returns `{}`, which is
falsy, so `get_scholar_detail` skips attaching it — `none` models both).
When the path succeeds the dict always contains `aminer_stats`, hence is
truthy, modeled as `some`. -/
def extract_enriched_fields (w : AWebResponse) : Option AEnriched :=
  match w.data? with
  | some (item0 :: _) =>
    match item0.data? with
    | some (p :: _) =>
      let profile := p.profile?.getD {}
      let links := p.links?.getD {}
      some
        { google_scholar? := truthyStr links.gs_url?
          dblp? := dblpOfLinks links.resource_link
          homepage? := truthyStr profile.homepage?
          phone? := truthyStr profile.phone?
          avatar_aminer? := truthyStr p.avatar?
          indices? := p.indices?
          research_tags? := (p.tags?.map (fun ts => ts.take 10))
          research_tags_scores? := (p.tags_score?.map (fun ts => ts.take 10))
          num_viewed := p.num_viewed?.getD 0
          num_followed := p.num_followed?.getD 0
          num_upvoted := p.num_upvoted?.getD 0
          address? := truthyStr profile.address?
          fax? := truthyStr profile.fax? }
    | _ => none
  | _ => none

/- ----------------------------------------------------------------
Detail Resolver state and run function
---------------------------------------------------------------- -/

/-- One cached detail file: modification time plus the parsed JSON
content.  `data? = none` models a file whose `read_json_cache` fails
(corrupt JSON — the service then falls through to a fresh fetch).
An `Official` dict is never empty, so `some` content is always truthy. -/
structure DetailFile where
  mtime : Nat
  data? : Option Official
  deriving Repr, DecidableEq

/-- The `cache/aminer` directory: scholar id ↦ `<id>.json` file. -/
def DetailCache := List (String × DetailFile)

instance : DecidableEq DetailCache := by
  unfold DetailCache
  infer_instance

/-- File lookup under the detail namespace (`get_cache_path` is the
injective map `id ↦ dir/<id>.json`; the association list is keyed by
`id` directly). -/
def lookupDetail (c : DetailCache) (id : String) : Option DetailFile :=
  match c with
  | [] => none
  | (k, f) :: rest => if k = id then some f else lookupDetail rest id

/-- Overwrite-or-insert a detail cache file (what `write_json_cache`
does to the file system). -/
def writeDetail (c : DetailCache) (id : String) (f : DetailFile) : DetailCache :=
  match c with
  | [] => [(id, f)]
  | (k, g) :: rest =>
      if k = id then (k, f) :: rest else (k, g) :: writeDetail rest id f

/-- Outcome of one HTTP POST to the AMiner web API, as observed through
`httpx`: either a parsed JSON body (2xx), or an `httpx.HTTPError`
(transport failure or, via `raise_for_status`, an error status). -/
inductive UpstreamOutcome where
  | ok (w : AWebResponse)
  | httpError
  deriving Repr, DecidableEq

/-- Result of one `get_scholar_detail` run: the response or raised
`HTTPException`, the detail cache directory afterwards, the number of
upstream POSTs performed, and the total seconds slept between retries. -/
structure DetailResult where
  outcome : Except HErr Official
  cache : DetailCache
  upstreamCalls : Nat
  slept : Nat

/-- Retry configuration of `fetch_aminer_web_api`:
`max_attempts = 2` (try once, retry once), `retry_delay = 5` seconds. -/
def aminer_retry_delay : Nat := 5

/-- The cache TTLs from `config.Settings`. -/
def aminer_cache_ttl : Nat := 1296000
/-- Avatar cache TTL from `config.Settings` (365 days). -/
def avatar_cache_ttl : Nat := 31536000

/-- From `fetch_aminer_web_api`: attempt 1; on `httpx.HTTPError` sleep
`retry_delay` seconds and attempt 2; a second failure raises
HTTP 502.  Returns (outcome, upstream calls made, seconds slept). -/
def fetch_aminer_web_api (ups : Nat → UpstreamOutcome) :
    Except HErr AWebResponse × Nat × Nat :=
  match ups 0 with
  | UpstreamOutcome.ok w => (Except.ok w, 1, 0)
  | UpstreamOutcome.httpError =>
    match ups 1 with
    | UpstreamOutcome.ok w => (Except.ok w, 2, aminer_retry_delay)
    | UpstreamOutcome.httpError =>
        (Except.error ⟨502, "Failed to fetch from AMiner API after 2 attempts"⟩,
         2, aminer_retry_delay)

/-- The explicit not-found check in `get_scholar_detail`: true iff
`"data" in web_response and len(web_response["data"]) > 0` and the first
item has `succeed is False`. -/
def aminerNotFoundSignal (w : AWebResponse) : Bool :=
  match w.data? with
  | some (item0 :: _) => item0.succeed? = some false
  | _ => false

/-- The cache-consultation step of `get_scholar_detail` (without the
`force_refresh` guard): returns parsed content when the file exists, is
within TTL, and reads back truthy; `none` otherwise (the service then
fetches fresh data). -/
def detailCacheRead (c : DetailCache) (now : Nat) (id : String) : Option Official :=
  match lookupDetail c id with
  | some f =>
      if is_cache_valid (some f.mtime) now aminer_cache_ttl then f.data? else none
  | none => none

/-- The success path of `get_scholar_detail` after the upstream body `w`
is obtained: not-found check, conversion, enrichment (always attached
when `extract_enriched_fields` is truthy), then one cache write. -/
def detailProcess (c : DetailCache) (now : Nat) (id : String) (logId : String)
    (w : AWebResponse) (calls slept : Nat) : DetailResult :=
  if aminerNotFoundSignal w then
    { outcome := Except.error
        ⟨404, "AMiner API error: Scholar not found or unavailable"⟩
      cache := c, upstreamCalls := calls, slept := slept }
  else
    match convert_web_api_to_official_format w logId with
    | Except.error e =>
        { outcome := Except.error e, cache := c
          upstreamCalls := calls, slept := slept }
    | Except.ok base =>
        let official : Official := { base with enriched? := extract_enriched_fields w }
        { outcome := Except.ok official
          cache := writeDetail c id ⟨now, some official⟩
          upstreamCalls := calls, slept := slept }

/-- From `aminer_service.get_scholar_detail(scholar_id, …, force_refresh)`.
The authorization / signature / timestamp headers are forwarded verbatim
to the upstream request and do not influence the control flow, so they
are not parameters of the embedding; `logId` is the fresh uuid fragment.
Cache writes are modeled as succeeding (`write_json_cache` failure only
changes a log line, not the response). -/
def get_scholar_detail (c : DetailCache) (now : Nat) (id : String)
    (ups : Nat → UpstreamOutcome) (logId : String) (force : Bool) : DetailResult :=
  match (if force then none else detailCacheRead c now id) with
  | some d => { outcome := Except.ok d, cache := c, upstreamCalls := 0, slept := 0 }
  | none =>
    match fetch_aminer_web_api ups with
    | (Except.error e, calls, slept) =>
        { outcome := Except.error e, cache := c
          upstreamCalls := calls, slept := slept }
    | (Except.ok w, calls, slept) => detailProcess c now id logId w calls slept

/- ----------------------------------------------------------------
Detail Resolver lemmas
---------------------------------------------------------------- -/

/-- Writing a detail cache entry makes it the one found for that key. -/
theorem lookupDetail_writeDetail (c : DetailCache) (id : String) (f : DetailFile) :
    lookupDetail (writeDetail c id f) id = some f := by
  induction c with
  | nil => simp [writeDetail, lookupDetail]
  | cons hd tl ih =>
    obtain ⟨k, g⟩ := hd
    by_cases h : k = id <;> simp [writeDetail, lookupDetail, h, ih]

/-- Sample upstream payload used by the concrete witnesses below. -/
def sampleProfile : AProfile :=
  { bio? := some "bio", affiliation? := some "MIT", email? := some "/magic?q=1" }

/-- Sample person for the witnesses. -/
def samplePerson : APerson :=
  { id? := some "S1", name? := some "Ada", profile? := some sampleProfile }

/-- Sample successful web API response item. -/
def sampleItem : AWebItem := { succeed? := some true, data? := some [samplePerson] }

/-- Sample successful web API response. -/
def sampleWeb : AWebResponse := { data? := some [sampleItem] }

/-- A concrete cached official record for the cache-hit witness. -/
def sampleOfficial : Official :=
  { code := 200, success := true, msg := ""
    data :=
      { id := "S1", name := "Ada", name_zh := "", bio := "bio", bio_zh := ""
        edu := "", edu_zh := "", position := "", position_zh := ""
        orgs := ["MIT"], org_zhs := [], honor := [], award := ""
        create_time := "", update_time := "", year? := none, domain := ""
        person_id := "S1" }
    log_id := "custom_w", enriched? := none, raw_response? := none }

/-- C1: Detail Resolver cache hit.  Part 1: with `forceRefresh = false`
and a valid (within-TTL, readable) positive record under `detail/id`,
the cached record is returned verbatim, with no upstream call, no sleep,
and no cache mutation.  Part 2: starting from a miss, a successful fetch
followed by a second `resolve(id, forceRefresh = false)` within the TTL
yields identical output on both calls and exactly one upstream call in
total (1 on the first run, 0 on the second). -/
theorem detail_cache_hit_idempotent :
    (∀ (c : DetailCache) (now : Nat) (id : String) (ups : Nat → UpstreamOutcome)
       (logId : String) (f : DetailFile) (d : Official),
       lookupDetail c id = some f →
       is_cache_valid (some f.mtime) now aminer_cache_ttl = true →
       f.data? = some d →
       get_scholar_detail c now id ups logId false =
         { outcome := Except.ok d, cache := c, upstreamCalls := 0, slept := 0 })
    ∧
    (∀ (c : DetailCache) (t1 t2 : Nat) (id : String)
       (ups1 ups2 : Nat → UpstreamOutcome) (logId1 logId2 : String)
       (w : AWebResponse),
       detailCacheRead c t1 id = none →
       ups1 0 = UpstreamOutcome.ok w →
       aminerNotFoundSignal w = false →
       (convert_web_api_to_official_format w logId1).isOk = true →
       t2 - t1 < aminer_cache_ttl →
       ∃ off : Official,
         (get_scholar_detail c t1 id ups1 logId1 false).outcome = Except.ok off ∧
         (get_scholar_detail c t1 id ups1 logId1 false).upstreamCalls = 1 ∧
         get_scholar_detail (get_scholar_detail c t1 id ups1 logId1 false).cache
             t2 id ups2 logId2 false =
           { outcome := Except.ok off
             cache := (get_scholar_detail c t1 id ups1 logId1 false).cache
             upstreamCalls := 0, slept := 0 }) := by
  constructor
  · intro c now id ups logId f d hf hv hd
    simp [get_scholar_detail, detailCacheRead, hf, hv, hd]
  · intro c t1 t2 id ups1 ups2 logId1 logId2 w hmiss hup hsig hconv httl
    match hc : convert_web_api_to_official_format w logId1 with
    | Except.error e => rw [hc] at hconv; simp [Except.isOk, Except.toBool] at hconv
    | Except.ok base =>
      refine ⟨{ base with enriched? := extract_enriched_fields w }, ?_⟩
      have h1 : get_scholar_detail c t1 id ups1 logId1 false =
          { outcome := Except.ok { base with enriched? := extract_enriched_fields w }
            cache := writeDetail c id
              ⟨t1, some { base with enriched? := extract_enriched_fields w }⟩
            upstreamCalls := 1, slept := 0 } := by
        simp [get_scholar_detail, hmiss, fetch_aminer_web_api, hup,
          detailProcess, hsig, hc]
      rw [h1]
      refine ⟨rfl, rfl, ?_⟩
      simp [get_scholar_detail, detailCacheRead, lookupDetail_writeDetail,
        is_cache_valid, httl]

/-- Witness for C1 at concrete inputs: a concrete valid cache file is
returned verbatim with zero upstream calls, and the concrete two-call
scenario from an empty cache performs exactly one upstream call. -/
theorem detail_cache_hit_idempotent_witness :
    (get_scholar_detail [("S1", ⟨3, some sampleOfficial⟩)] 10 "S1"
        (fun _ => UpstreamOutcome.httpError) "L" false =
      { outcome := Except.ok sampleOfficial
        cache := [("S1", ⟨3, some sampleOfficial⟩)]
        upstreamCalls := 0, slept := 0 })
    ∧
    (∃ off : Official,
       (get_scholar_detail [] 100 "S1" (fun _ => UpstreamOutcome.ok sampleWeb)
           "u1" false).outcome = Except.ok off ∧
       (get_scholar_detail [] 100 "S1" (fun _ => UpstreamOutcome.ok sampleWeb)
           "u1" false).upstreamCalls = 1 ∧
       get_scholar_detail
           (get_scholar_detail [] 100 "S1" (fun _ => UpstreamOutcome.ok sampleWeb)
             "u1" false).cache 200 "S1" (fun _ => UpstreamOutcome.httpError)
           "u2" false =
         { outcome := Except.ok off
           cache := (get_scholar_detail [] 100 "S1"
             (fun _ => UpstreamOutcome.ok sampleWeb) "u1" false).cache
           upstreamCalls := 0, slept := 0 }) := by
  constructor
  · exact detail_cache_hit_idempotent.1 _ _ _ _ _ _ _ rfl (by decide) rfl
  · exact detail_cache_hit_idempotent.2 [] 100 200 "S1" _ _ "u1" "u2" sampleWeb
      rfl rfl (by decide) (by decide) (by decide)

/-- C2: Detail Resolver retry policy.  When the cache is bypassed
(forced refresh or no valid readable record) and both upstream attempts
fail with a transport/network error, the resolver sleeps the fixed
5-second delay, performs exactly 2 upstream calls (one retry), surfaces
HTTP 502, and leaves the detail cache untouched (no positive or negative
record is written). -/
theorem detail_retry_policy (c : DetailCache) (now : Nat) (id logId : String)
    (ups : Nat → UpstreamOutcome) (force : Bool)
    (hfetch : force = true ∨ detailCacheRead c now id = none)
    (h0 : ups 0 = UpstreamOutcome.httpError)
    (h1 : ups 1 = UpstreamOutcome.httpError) :
    get_scholar_detail c now id ups logId force =
      { outcome := Except.error
          ⟨502, "Failed to fetch from AMiner API after 2 attempts"⟩
        cache := c, upstreamCalls := 2, slept := aminer_retry_delay } := by
  rcases hfetch with hforce | hmiss
  · subst hforce
    simp [get_scholar_detail, fetch_aminer_web_api, h0, h1]
  · cases force <;>
      simp [get_scholar_detail, hmiss, fetch_aminer_web_api, h0, h1]

/-- Witness for C2: from an empty cache with an always-failing upstream,
the run returns 502 with 2 calls, a 5-second sleep, and an unchanged
(empty) cache. -/
theorem detail_retry_policy_witness :
    get_scholar_detail [] 0 "S1" (fun _ => UpstreamOutcome.httpError) "L" false =
      { outcome := Except.error
          ⟨502, "Failed to fetch from AMiner API after 2 attempts"⟩
        cache := [], upstreamCalls := 2, slept := aminer_retry_delay } :=
  detail_retry_policy [] 0 "S1" "L" (fun _ => UpstreamOutcome.httpError) false
    (Or.inr rfl) rfl rfl

/-- C3: Detail Resolver not-found handling.  When the cache is bypassed
and the upstream call succeeds but the first item of the response `data`
list carries `succeed = False`, the resolver raises HTTP 404 and writes
nothing to the cache (detail misses are never negative-cached). -/
theorem detail_not_found_no_cache (c : DetailCache) (now : Nat)
    (id logId : String) (ups : Nat → UpstreamOutcome) (force : Bool)
    (w : AWebResponse) (item : AWebItem) (rest : List AWebItem)
    (hfetch : force = true ∨ detailCacheRead c now id = none)
    (h0 : ups 0 = UpstreamOutcome.ok w)
    (hdata : w.data? = some (item :: rest))
    (hsig : item.succeed? = some false) :
    get_scholar_detail c now id ups logId force =
      { outcome := Except.error
          ⟨404, "AMiner API error: Scholar not found or unavailable"⟩
        cache := c, upstreamCalls := 1, slept := 0 } := by
  have hns : aminerNotFoundSignal w = true := by
    simp [aminerNotFoundSignal, hdata, hsig]
  rcases hfetch with hforce | hmiss
  · subst hforce
    simp [get_scholar_detail, fetch_aminer_web_api, h0, detailProcess, hns]
  · cases force <;>
      simp [get_scholar_detail, hmiss, fetch_aminer_web_api, h0,
        detailProcess, hns]

/-- Witness for C3: a concrete `succeed = False` response yields 404 and
an unchanged empty cache after exactly one upstream call. -/
theorem detail_not_found_no_cache_witness :
    get_scholar_detail [] 0 "S1"
        (fun _ => UpstreamOutcome.ok { data? := some [{ succeed? := some false }] })
        "L" false =
      { outcome := Except.error
          ⟨404, "AMiner API error: Scholar not found or unavailable"⟩
        cache := [], upstreamCalls := 1, slept := 0 } :=
  detail_not_found_no_cache [] 0 "S1" "L" _ false
    { data? := some [{ succeed? := some false }] } { succeed? := some false } []
    (Or.inr rfl) rfl rfl rfl

/- ----------------------------------------------------------------
Avatar Resolver (`services/avatar_service.py`)
---------------------------------------------------------------- -/

/-- From `avatar_service.DEFAULT_AVATAR_SIZE`: a downloaded avatar of
exactly this many bytes is treated as the provider's default placeholder. -/
def DEFAULT_AVATAR_SIZE : Nat := 1676

/-- One cached avatar image file: modification time and raw bytes
(bytes are modeled as a list of byte values; only the length is ever
inspected by the service logic). -/
structure AvatarFile where
  mtime : Nat
  bytes : List Nat
  deriving Repr, DecidableEq

/-- The `cache/avatars` directory: `.default` negative markers
(id ↦ marker mtime) and positive image files ((id, extension) ↦ file). -/
structure AvatarState where
  markers : List (String × Nat)
  files : List ((String × String) × AvatarFile)
  deriving DecidableEq

/-- Marker lookup (`<id>.default` existence plus its mtime). -/
def avatarMarker (st : AvatarState) (id : String) : Option Nat :=
  (st.markers.find? (fun e => e.1 = id)).map (fun e => e.2)

/-- Positive file lookup for `<id><ext>`. -/
def avatarFile (st : AvatarState) (id ext : String) : Option AvatarFile :=
  (st.files.find? (fun e => e.1 = (id, ext))).map (fun e => e.2)

/-- `Path.touch` on the `.default` marker: create or refresh it at `now`. -/
def touchMarker (st : AvatarState) (id : String) (now : Nat) : AvatarState :=
  { st with markers := (id, now) :: st.markers.filter (fun e => ¬ e.1 = id) }

/-- `Path.unlink` on the `.default` marker. -/
def removeMarker (st : AvatarState) (id : String) : AvatarState :=
  { st with markers := st.markers.filter (fun e => ¬ e.1 = id) }

/-- Writing the downloaded avatar to `<id><ext>`. -/
def writeAvatarFile (st : AvatarState) (id ext : String) (f : AvatarFile) :
    AvatarState :=
  { st with
    files := ((id, ext), f) :: st.files.filter (fun e => ¬ e.1 = (id, ext)) }

/-- Outcome of the Firecrawl scrape (`fetch_avatar_url_from_firecrawl`):
an avatar URL extracted from the streamed page (already stripped of the
trailing `!size` variant suffix by the service), no match, a timeout
(`httpx.TimeoutException` → 504), or any other failure (non-200 status
or exception → 502). -/
inductive FirecrawlOutcome where
  | found (url : String)
  | notFound
  | timeout
  | failure
  deriving Repr, DecidableEq

/-- Outcome of the avatar download (`download_avatar`): body bytes plus
`Content-Type` (default `image/jpeg`), a timeout (→ 504), a non-2xx
status (`httpx.HTTPStatusError` → 502), or another transport error
(→ 502). -/
inductive DownloadOutcome where
  | ok (bytes : List Nat) (contentType : String)
  | timeout
  | statusError
  | transportError
  deriving Repr, DecidableEq

/-- Does `sub` occur as a contiguous run inside the character list? -/
def listHasRun (sub : List Char) : List Char → Bool
  | [] => sub.isEmpty
  | c :: t => sub.isPrefixOf (c :: t) || listHasRun sub t

/-- Substring test used to model Python's `'jpeg' in content_type`. -/
def strContains (s sub : String) : Bool :=
  listHasRun sub.toList s.toList

/-- The path component of a URL as `urlparse(url).path`: drop the
`scheme://host` part, then cut at `?` or `#`. -/
def urlPath (url : String) : String :=
  let afterScheme :=
    match url.splitOn "://" with
    | _ :: rest :: _ => (rest.splitOn "/").tail.foldl (fun a s => a ++ "/" ++ s) ""
    | _ => url
  ((afterScheme.splitOn "?").headD "").splitOn "#" |>.headD ""

/-- `Path(path).suffix`: the final `.ext` of the last path component,
empty when there is no dot. -/
def pathSuffix (p : String) : String :=
  let last := ((p.splitOn "/").getLastD "")
  match last.splitOn "." with
  | [] => ""
  | [_] => ""
  | parts => "." ++ parts.getLastD ""

/-- From `avatar_service.get_file_extension(content_type, url)`. -/
def get_file_extension (contentType url : String) : String :=
  if strContains contentType "jpeg" || strContains contentType "jpg" then ".jpg"
  else if strContains contentType "png" then ".png"
  else
    let ext := pathSuffix (urlPath url)
    if ext = "" then ".jpg" else ext

/-- Result of one `get_scholar_avatar` run: response or raised
`HTTPException`, the avatar cache directory afterwards, and the number
of network operations performed (Firecrawl scrape and avatar download
each count as one). -/
structure AvatarResult where
  outcome : Except HErr (List Nat × String)
  st : AvatarState
  netCalls : Nat

/-- The cached-avatar loop of `get_scholar_avatar`: the first extension
in `['.jpg', '.jpeg', '.png']` whose file exists, with `force_refresh`
unset and the file within `avatar_cache_ttl`, is served (content type
derived from the extension). -/
def avatarCacheHit (st : AvatarState) (now : Nat) (id : String) (force : Bool) :
    Option (List Nat × String) :=
  ([".jpg", ".jpeg", ".png"].findSome?
    (fun ext =>
      match avatarFile st id ext with
      | some f =>
          if !force && is_cache_valid (some f.mtime) now avatar_cache_ttl then
            some (f.bytes, if ext = ".png" then "image/png" else "image/jpeg")
          else none
      | none => none))

/-- The download phase of `get_scholar_avatar`, entered once Firecrawl
produced `url` (2 network calls have then been made). -/
def avatarDownloadPhase (st : AvatarState) (now : Nat) (id url : String)
    (dl : DownloadOutcome) : AvatarResult :=
  match dl with
  | DownloadOutcome.timeout =>
      { outcome := Except.error ⟨504, "Avatar download timeout - will retry next time"⟩
        st := st, netCalls := 2 }
  | DownloadOutcome.statusError =>
      { outcome := Except.error ⟨502, "Avatar download HTTP error - will retry next time"⟩
        st := st, netCalls := 2 }
  | DownloadOutcome.transportError =>
      { outcome := Except.error ⟨502, "Avatar download error - will retry next time"⟩
        st := st, netCalls := 2 }
  | DownloadOutcome.ok bytes contentType =>
      if bytes.length = DEFAULT_AVATAR_SIZE then
        { outcome := Except.error ⟨404, "Scholar has default avatar"⟩
          st := touchMarker st id now, netCalls := 2 }
      else
        let ext := get_file_extension contentType url
        { outcome := Except.ok (bytes, contentType)
          st := removeMarker (writeAvatarFile st id ext ⟨now, bytes⟩) id
          netCalls := 2 }

/-- From `avatar_service.get_scholar_avatar(aminer_id, force_refresh)`.
Note the `.default` marker short-circuit tests only
`default_marker_path.exists() and not force_refresh` — the source applies
no TTL to avatar negative markers.  File writes are modeled as
succeeding (a write failure only skips the cache update, it does not
fail the response). -/
def get_scholar_avatar (st : AvatarState) (now : Nat) (id : String)
    (fc : FirecrawlOutcome) (dl : DownloadOutcome) (force : Bool) : AvatarResult :=
  if (avatarMarker st id).isSome && !force then
    { outcome := Except.error ⟨404, "Scholar has default avatar"⟩
      st := st, netCalls := 0 }
  else
    match avatarCacheHit st now id force with
    | some hit => { outcome := Except.ok hit, st := st, netCalls := 0 }
    | none =>
      match fc with
      | FirecrawlOutcome.timeout =>
          { outcome := Except.error ⟨504, "Firecrawl API timeout"⟩
            st := st, netCalls := 1 }
      | FirecrawlOutcome.failure =>
          { outcome := Except.error ⟨502, "Firecrawl API error"⟩
            st := st, netCalls := 1 }
      | FirecrawlOutcome.notFound =>
          { outcome := Except.error ⟨404, "Avatar not found"⟩
            st := touchMarker st id now, netCalls := 1 }
      | FirecrawlOutcome.found url => avatarDownloadPhase st now id url dl

/- ----------------------------------------------------------------
Avatar Resolver lemmas and claims
---------------------------------------------------------------- -/

/-- Touching the `.default` marker leaves positive files untouched. -/
theorem touchMarker_files (st : AvatarState) (id : String) (now : Nat) :
    (touchMarker st id now).files = st.files := rfl

/-- The touched marker is found with the touch time. -/
theorem avatarMarker_touchMarker (st : AvatarState) (id : String) (now : Nat) :
    avatarMarker (touchMarker st id now) id = some now := by
  simp [avatarMarker, touchMarker, List.find?]

/-- C4 counterexample: the avatar resolver's negative-marker check has
no TTL.  With a `.default` marker written at time 0 and the clock at
10^9 seconds — an age beyond even the 365-day positive-record TTL, hence
far beyond any "shorter" negative TTL class — the resolver still
short-circuits to 404 with zero network calls and no new discovery
attempt, contradicting the claim that an expired negative marker does
not short-circuit. -/
theorem avatar_marker_ttl_counterexample :
    avatar_cache_ttl < 1000000000 - 0 ∧
    (get_scholar_avatar ⟨[("S1", 0)], []⟩ 1000000000 "S1"
        FirecrawlOutcome.notFound DownloadOutcome.timeout false).netCalls = 0 ∧
    (get_scholar_avatar ⟨[("S1", 0)], []⟩ 1000000000 "S1"
        FirecrawlOutcome.notFound DownloadOutcome.timeout false).outcome =
      Except.error ⟨404, "Scholar has default avatar"⟩ ∧
    (get_scholar_avatar ⟨[("S1", 0)], []⟩ 1000000000 "S1"
        FirecrawlOutcome.notFound DownloadOutcome.timeout false).st =
      ⟨[("S1", 0)], []⟩ :=
  ⟨by decide, rfl, rfl, rfl⟩

/-- C4 (amended): for every scholar id, the Avatar Resolver
short-circuits to `NotFoundError` with no network call whenever a
negative `.default` marker exists and `forceRefresh` is false,
regardless of the marker's age — no TTL class is applied to avatar
negative markers, and forcing a refresh is the only way past one. -/
theorem avatar_negative_marker_short_circuit (st : AvatarState) (now : Nat)
    (id : String) (fc : FirecrawlOutcome) (dl : DownloadOutcome) (m : Nat)
    (hm : avatarMarker st id = some m) :
    get_scholar_avatar st now id fc dl false =
      { outcome := Except.error ⟨404, "Scholar has default avatar"⟩
        st := st, netCalls := 0 } := by
  simp [get_scholar_avatar, hm]

/-- Witness for the amended C4 at a concrete aged marker. -/
theorem avatar_negative_marker_short_circuit_witness :
    get_scholar_avatar ⟨[("S2", 7)], []⟩ 999999 "S2"
        FirecrawlOutcome.notFound DownloadOutcome.timeout false =
      { outcome := Except.error ⟨404, "Scholar has default avatar"⟩
        st := ⟨[("S2", 7)], []⟩, netCalls := 0 } :=
  avatar_negative_marker_short_circuit ⟨[("S2", 7)], []⟩ 999999 "S2"
    FirecrawlOutcome.notFound DownloadOutcome.timeout 7 rfl

/-- C5: default-avatar reclassification.  Part 1: when the marker and
positive-cache checks fall through, URL discovery succeeds, and the
download returns exactly `DEFAULT_AVATAR_SIZE` (1676) bytes, the
resolver writes the negative marker (timestamped now) and fails with
404; the positive files are untouched.  Part 2 (invariant): after any
run, every positive file either predates the run or has a byte length
different from `DEFAULT_AVATAR_SIZE` — 1676-byte downloads are never
stored as positive records. -/
theorem avatar_default_reclassification :
    (∀ (st : AvatarState) (now : Nat) (id url contentType : String)
       (bytes : List Nat) (force : Bool),
       (avatarMarker st id = none ∨ force = true) →
       avatarCacheHit st now id force = none →
       bytes.length = DEFAULT_AVATAR_SIZE →
       get_scholar_avatar st now id (FirecrawlOutcome.found url)
           (DownloadOutcome.ok bytes contentType) force =
         { outcome := Except.error ⟨404, "Scholar has default avatar"⟩
           st := touchMarker st id now, netCalls := 2 } ∧
       avatarMarker (get_scholar_avatar st now id (FirecrawlOutcome.found url)
           (DownloadOutcome.ok bytes contentType) force).st id = some now)
    ∧
    (∀ (st : AvatarState) (now : Nat) (id : String) (fc : FirecrawlOutcome)
       (dl : DownloadOutcome) (force : Bool)
       (e : (String × String) × AvatarFile),
       e ∈ (get_scholar_avatar st now id fc dl force).st.files →
       e ∈ st.files ∨ e.2.bytes.length ≠ DEFAULT_AVATAR_SIZE) := by
  constructor
  · intro st now id url contentType bytes force hm hc hlen
    have hrun : get_scholar_avatar st now id (FirecrawlOutcome.found url)
        (DownloadOutcome.ok bytes contentType) force =
        { outcome := Except.error ⟨404, "Scholar has default avatar"⟩
          st := touchMarker st id now, netCalls := 2 } := by
      rcases hm with hnone | hforce
      · simp [get_scholar_avatar, hnone, hc, avatarDownloadPhase, hlen]
      · subst hforce
        simp [get_scholar_avatar, hc, avatarDownloadPhase, hlen]
    exact ⟨hrun, by rw [hrun]; exact avatarMarker_touchMarker st id now⟩
  · intro st now id fc dl force e he
    unfold get_scholar_avatar avatarDownloadPhase at he
    split at he
    · exact Or.inl he
    · split at he
      · exact Or.inl he
      · split at he
        · exact Or.inl he
        · exact Or.inl he
        · exact Or.inl he
        · split at he
          · exact Or.inl he
          · exact Or.inl he
          · exact Or.inl he
          · split at he
            · exact Or.inl he
            · next bytes contentType hlen =>
              simp only [removeMarker, writeAvatarFile, List.mem_cons] at he
              rcases he with rfl | he
              · exact Or.inr hlen
              · exact Or.inl (List.mem_of_mem_filter he)

/-- Witness for C5: a concrete 1676-byte download from an empty cache
produces the marker plus 404, and the stored-files invariant holds on
that run. -/
theorem avatar_default_reclassification_witness :
    (get_scholar_avatar ⟨[], []⟩ 50 "S3" (FirecrawlOutcome.found "u")
        (DownloadOutcome.ok (List.replicate 1676 0) "image/jpeg") false =
      { outcome := Except.error ⟨404, "Scholar has default avatar"⟩
        st := touchMarker ⟨[], []⟩ "S3" 50, netCalls := 2 } ∧
     avatarMarker (get_scholar_avatar ⟨[], []⟩ 50 "S3"
        (FirecrawlOutcome.found "u")
        (DownloadOutcome.ok (List.replicate 1676 0) "image/jpeg") false).st
        "S3" = some 50)
    ∧
    (∀ e : (String × String) × AvatarFile,
       e ∈ (get_scholar_avatar ⟨[], []⟩ 50 "S3" (FirecrawlOutcome.found "u")
         (DownloadOutcome.ok (List.replicate 1676 0) "image/jpeg") false).st.files →
       e ∈ ([] : List ((String × String) × AvatarFile)) ∨
         e.2.bytes.length ≠ DEFAULT_AVATAR_SIZE) :=
  ⟨avatar_default_reclassification.1 ⟨[], []⟩ 50 "S3" "u" "image/jpeg"
      (List.replicate 1676 0) false (Or.inl rfl) rfl
      (by rw [List.length_replicate, DEFAULT_AVATAR_SIZE]),
   fun e => avatar_default_reclassification.2 ⟨[], []⟩ 50 "S3"
      (FirecrawlOutcome.found "u")
      (DownloadOutcome.ok (List.replicate 1676 0) "image/jpeg") false e⟩

/-- C6: no caching on transient avatar-download failure.  When the
marker and positive-cache checks fall through, discovery succeeded, and
the download fails, the resolver surfaces 504 (timeout), 502 (HTTP error
status), or 502 (other transport error), leaves the cache state exactly
as it was (no positive record and no negative marker written), so the
next call retries. -/
theorem avatar_no_cache_on_transient_failure (st : AvatarState) (now : Nat)
    (id url : String) (force : Bool)
    (hm : avatarMarker st id = none ∨ force = true)
    (hc : avatarCacheHit st now id force = none) :
    (get_scholar_avatar st now id (FirecrawlOutcome.found url)
        DownloadOutcome.timeout force =
      { outcome := Except.error ⟨504, "Avatar download timeout - will retry next time"⟩
        st := st, netCalls := 2 })
    ∧
    (get_scholar_avatar st now id (FirecrawlOutcome.found url)
        DownloadOutcome.statusError force =
      { outcome := Except.error ⟨502, "Avatar download HTTP error - will retry next time"⟩
        st := st, netCalls := 2 })
    ∧
    (get_scholar_avatar st now id (FirecrawlOutcome.found url)
        DownloadOutcome.transportError force =
      { outcome := Except.error ⟨502, "Avatar download error - will retry next time"⟩
        st := st, netCalls := 2 }) := by
  rcases hm with hnone | hforce
  · refine ⟨?_, ?_, ?_⟩ <;>
      simp [get_scholar_avatar, hnone, hc, avatarDownloadPhase]
  · subst hforce
    refine ⟨?_, ?_, ?_⟩ <;>
      simp [get_scholar_avatar, hc, avatarDownloadPhase]

/-- Witness for C6 at a concrete empty cache. -/
theorem avatar_no_cache_on_transient_failure_witness :
    (get_scholar_avatar ⟨[], []⟩ 9 "S4" (FirecrawlOutcome.found "u")
        DownloadOutcome.timeout false =
      { outcome := Except.error ⟨504, "Avatar download timeout - will retry next time"⟩
        st := ⟨[], []⟩, netCalls := 2 })
    ∧
    (get_scholar_avatar ⟨[], []⟩ 9 "S4" (FirecrawlOutcome.found "u")
        DownloadOutcome.statusError false =
      { outcome := Except.error ⟨502, "Avatar download HTTP error - will retry next time"⟩
        st := ⟨[], []⟩, netCalls := 2 })
    ∧
    (get_scholar_avatar ⟨[], []⟩ 9 "S4" (FirecrawlOutcome.found "u")
        DownloadOutcome.transportError false =
      { outcome := Except.error ⟨502, "Avatar download error - will retry next time"⟩
        st := ⟨[], []⟩, netCalls := 2 }) :=
  avatar_no_cache_on_transient_failure ⟨[], []⟩ 9 "S4" "u" false
    (Or.inl rfl) rfl

/- ----------------------------------------------------------------
Image conversion (`email_service.convert_transparent_to_white_bg`)

PIL images are modeled as pixel grids: a pixel carries up to four
8-bit bands.  For mode `RGBA` the bands are (r, g, b, alpha); for `LA`
the luminance is stored in `r` and the alpha in `a`; for palette mode
`P` the palette is taken as already resolved to (r, g, b).  PNG/JPEG
byte encodings are abstracted as `(image, format)` pairs (`EmailBytes`),
with a `corrupt` constructor for byte strings PIL cannot decode — on
those the Python function's exception handler returns the original
bytes with content type `image/png`.
---------------------------------------------------------------- -/

/-- A pixel: four 8-bit bands. -/
structure Pix where
  r : Nat
  g : Nat
  b : Nat
  a : Nat
  deriving Repr, DecidableEq

/-- The PIL modes the conversion code distinguishes. -/
inductive PilMode where
  | RGBA
  | LA
  | RGB
  | P
  | L
  deriving Repr, DecidableEq

/-- A decoded PIL image: size, mode, the `'transparency' in img.info`
flag for palette images, and the pixel grid. -/
structure PilImage where
  width : Nat
  height : Nat
  mode : PilMode
  transparencyInfo : Bool
  px : Nat → Nat → Pix

/-- PIL's `MULDIV255(a, m) = ((a * m + 128) * 257) >> 16`, the rounded
byte product used by `Image.paste` when blending through a mask. -/
def muldiv255 (a m : Nat) : Nat := ((a * m + 128) * 257) / 65536

/-- One channel of `white_bg.paste(img, mask)`: blend the background
value `bg` with the source value `src` under mask value `m`
(`BLEND(mask, in1, in2)` in PIL's Paste.c). -/
def blendChannel (bg src m : Nat) : Nat :=
  muldiv255 bg (255 - m) + muldiv255 src m

/-- `img.convert('RGB')` on a single pixel: luminance modes replicate
the gray band, palette pixels are taken as resolved RGB, and any alpha
band is dropped. -/
def pixToRGB (mode : PilMode) (p : Pix) : Pix :=
  match mode with
  | PilMode.L => ⟨p.r, p.r, p.r, 255⟩
  | PilMode.LA => ⟨p.r, p.r, p.r, 255⟩
  | _ => ⟨p.r, p.g, p.b, 255⟩

/-- The image-level core of `convert_transparent_to_white_bg`: modes
`RGBA`/`LA` (and `P` with a transparency entry) are pasted onto a white
`RGB` canvas — `RGBA`/`LA` through their alpha band as mask, `P`
without a mask (a full copy); every other mode is converted to plain
`RGB` when it is not `RGB` already. -/
def convert_image (img : PilImage) : PilImage :=
  if img.mode = PilMode.RGBA ∨ img.mode = PilMode.LA ∨
     (img.mode = PilMode.P ∧ img.transparencyInfo) then
    match img.mode with
    | PilMode.RGBA =>
        { width := img.width, height := img.height, mode := PilMode.RGB
          transparencyInfo := false
          px := fun x y =>
            let p := img.px x y
            ⟨blendChannel 255 p.r p.a, blendChannel 255 p.g p.a,
             blendChannel 255 p.b p.a, 255⟩ }
    | PilMode.LA =>
        { width := img.width, height := img.height, mode := PilMode.RGB
          transparencyInfo := false
          px := fun x y =>
            let p := img.px x y
            ⟨blendChannel 255 p.r p.a, blendChannel 255 p.r p.a,
             blendChannel 255 p.r p.a, 255⟩ }
    | _ =>
        { width := img.width, height := img.height, mode := PilMode.RGB
          transparencyInfo := false
          px := fun x y => pixToRGB img.mode (img.px x y) }
  else if img.mode = PilMode.RGB then img
  else
    { width := img.width, height := img.height, mode := PilMode.RGB
      transparencyInfo := false
      px := fun x y => pixToRGB img.mode (img.px x y) }

/-- The image formats the email service distinguishes by extension. -/
inductive ImgFormat where
  | png
  | jpeg
  | gif
  | webp
  deriving Repr, DecidableEq

/-- Image byte strings: an encoded image with its container format, or
bytes PIL fails to decode. -/
inductive EmailBytes where
  | encoded (img : PilImage) (fmt : ImgFormat)
  | corrupt (tag : Nat)

/-- Uppercase one ASCII character, as Python `str.upper` does on the
format names involved here. -/
def charUpper (c : Char) : Char :=
  if 'a' ≤ c ∧ c ≤ 'z' then Char.ofNat (c.toNat - 32) else c

/-- Python `str.upper()` on ASCII strings. -/
def pyUpper (s : String) : String := String.mk (s.toList.map charUpper)

/-- From `email_service.convert_transparent_to_white_bg(image_bytes,
output_format)`: decode, paste onto white, and re-encode as JPEG when
`output_format.upper() == "JPEG"`, PNG otherwise; if decoding fails the
original bytes come back with content type `image/png`. -/
def convert_transparent_to_white_bg (b : EmailBytes) (output_format : String) :
    EmailBytes × String :=
  match b with
  | EmailBytes.corrupt t => (EmailBytes.corrupt t, "image/png")
  | EmailBytes.encoded img _ =>
      if pyUpper output_format = "JPEG" then
        (EmailBytes.encoded (convert_image img) ImgFormat.jpeg, "image/jpeg")
      else
        (EmailBytes.encoded (convert_image img) ImgFormat.png, "image/png")

/-- A mask value of 0 keeps the white background byte. -/
theorem blendChannel_mask_zero (c : Nat) : blendChannel 255 c 0 = 255 := by
  simp [blendChannel, muldiv255]

/-- A mask value of 255 copies the source byte (for byte-range values). -/
theorem blendChannel_mask_full (c : Nat) (hc : c ≤ 255) :
    blendChannel 255 c 255 = c := by
  simp only [blendChannel, muldiv255]
  omega

/-- C9: white-background conversion round trip.  For an RGBA input,
`convert_transparent_to_white_bg` with output format "PNG" re-encodes
the pasted image as PNG with content type `image/png`; the converted
image has no alpha channel (mode `RGB`), every fully transparent pixel
(alpha 0, e.g. the corners) becomes pure white (255, 255, 255), and
every fully opaque pixel (alpha 255, e.g. the central region) keeps its
RGB values unchanged. -/
theorem white_bg_conversion_round_trip (img : PilImage) (fmt : ImgFormat)
    (hmode : img.mode = PilMode.RGBA) :
    convert_transparent_to_white_bg (EmailBytes.encoded img fmt) "PNG" =
      (EmailBytes.encoded (convert_image img) ImgFormat.png, "image/png") ∧
    (convert_image img).mode = PilMode.RGB ∧
    (∀ x y, (img.px x y).a = 0 →
       (convert_image img).px x y = ⟨255, 255, 255, 255⟩) ∧
    (∀ x y, (img.px x y).a = 255 → (img.px x y).r ≤ 255 →
       (img.px x y).g ≤ 255 → (img.px x y).b ≤ 255 →
       ((convert_image img).px x y).r = (img.px x y).r ∧
       ((convert_image img).px x y).g = (img.px x y).g ∧
       ((convert_image img).px x y).b = (img.px x y).b) := by
  have hup : ¬ pyUpper "PNG" = "JPEG" := by decide
  refine ⟨by simp [convert_transparent_to_white_bg, hup], ?_, ?_, ?_⟩
  · simp [convert_image, hmode]
  · intro x y ha
    simp [convert_image, hmode, ha, blendChannel_mask_zero]
  · intro x y ha hr hg hb
    simp [convert_image, hmode, ha, blendChannel_mask_full _ hr,
      blendChannel_mask_full _ hg, blendChannel_mask_full _ hb]

/-- A concrete 2-by-2 RGBA image: transparent at (0,0), opaque
elsewhere. -/
def imgW : PilImage :=
  { width := 2, height := 2, mode := PilMode.RGBA, transparencyInfo := false
    px := fun x y => if x = 0 && y = 0 then ⟨0, 0, 0, 0⟩ else ⟨10, 20, 30, 255⟩ }

/-- Witness for C9 on the concrete image `imgW`: PNG re-encoding, RGB
mode, white corner, unchanged opaque pixel. -/
theorem white_bg_conversion_round_trip_witness :
    convert_transparent_to_white_bg (EmailBytes.encoded imgW ImgFormat.png) "PNG" =
      (EmailBytes.encoded (convert_image imgW) ImgFormat.png, "image/png") ∧
    (convert_image imgW).mode = PilMode.RGB ∧
    (convert_image imgW).px 0 0 = ⟨255, 255, 255, 255⟩ ∧
    ((convert_image imgW).px 1 1).r = 10 ∧
    ((convert_image imgW).px 1 1).g = 20 ∧
    ((convert_image imgW).px 1 1).b = 30 := by
  have h := white_bg_conversion_round_trip imgW ImgFormat.png rfl
  have hopaque := h.2.2.2 1 1 (by decide) (by decide) (by decide) (by decide)
  exact ⟨h.1, h.2.1, h.2.2.1 0 0 (by decide), by
    have := hopaque.1; simpa [imgW] using this, by
    have := hopaque.2.1; simpa [imgW] using this, by
    have := hopaque.2.2; simpa [imgW] using this⟩

/- ----------------------------------------------------------------
Email-Image Resolver (`services/email_service.py`)
---------------------------------------------------------------- -/

/-- One cached email-image file: modification time plus bytes. -/
structure EmailFile where
  mtime : Nat
  bytes : EmailBytes

/-- The email cache directory plus the shared detail cache the resolver
reads: `.no_email` markers (id ↦ mtime) and image files
((id, extension) ↦ file). -/
structure EmailState where
  detail : DetailCache
  markers : List (String × Nat)
  images : List ((String × String) × EmailFile)

/-- The `.no_email` marker for a scholar (existence plus mtime). -/
def emailMarker (st : EmailState) (id : String) : Option Nat :=
  (st.markers.find? (fun e => e.1 = id)).map (fun e => e.2)

/-- Cached email image lookup for `<id><ext>`. -/
def emailImage (st : EmailState) (id ext : String) : Option EmailFile :=
  (st.images.find? (fun e => e.1 = (id, ext))).map (fun e => e.2)

/-- `no_email_marker.touch()`. -/
def touchEmailMarker (st : EmailState) (id : String) (now : Nat) : EmailState :=
  { st with markers := (id, now) :: st.markers.filter (fun e => ¬ e.1 = id) }

/-- `no_email_marker.unlink()`. -/
def removeEmailMarker (st : EmailState) (id : String) : EmailState :=
  { st with markers := st.markers.filter (fun e => ¬ e.1 = id) }

/-- Writing the canonical cached image to `<id><ext>`. -/
def writeEmailImage (st : EmailState) (id ext : String) (f : EmailFile) :
    EmailState :=
  { st with
    images := ((id, ext), f) :: st.images.filter (fun e => ¬ e.1 = (id, ext)) }

/-- The `old_file.unlink()` loops: delete every cached image for `id`
whose extension is in `exts`. -/
def deleteImages (st : EmailState) (id : String) (exts : List String) :
    EmailState :=
  { st with
    images := st.images.filter (fun e => ¬ (e.1.1 = id ∧ e.1.2 ∈ exts)) }

/-- Extraction of
`raw_response["data"][0]["data"][0]["profile"].get("email", "")`:
`none` models the `KeyError`/`IndexError`/`TypeError` path (caught and
logged), `some` the extracted value with the `""` default. -/
def emailPathOfRaw (raw : AWebResponse) : Option String :=
  match raw.data? with
  | some (item0 :: _) =>
    match item0.data? with
    | some (p :: _) =>
      match p.profile? with
      | some pr => some (pr.email?.getD "")
      | none => none
    | _ => none
  | _ => none

/-- Outcome of the GET for the email image itself. -/
inductive EmailFetchOutcome where
  | ok (bytes : EmailBytes) (contentType : String)
  | httpError

/-- Python `str.startswith`, by character-list comparison. -/
def pyStartsWith (s pre : String) : Bool :=
  pre.toList.isPrefixOf s.toList

/-- From `email_service.fetch_email_image_from_aminer`: a path not
starting with `/magic` is rejected with 400 before any network call;
otherwise one GET is made and an `httpx.HTTPError` becomes 502.
Returns the outcome and the number of network calls made. -/
def fetch_email_image_from_aminer (path : String) (o : EmailFetchOutcome) :
    Except HErr (EmailBytes × String) × Nat :=
  if !pyStartsWith path "/magic" then
    (Except.error ⟨400, "Invalid email path format"⟩, 0)
  else
    match o with
    | EmailFetchOutcome.ok b ct => (Except.ok (b, ct), 1)
    | EmailFetchOutcome.httpError =>
        (Except.error ⟨502, "Failed to fetch email image from AMiner"⟩, 1)

/-- Result of one `get_scholar_email_image` run: outcome, the cache
state afterwards, email-image GETs made, forced detail refreshes made,
and the number of attempts to locate the email field in the cached
detail record. -/
structure EmailResult where
  outcome : Except HErr (EmailBytes × String)
  st : EmailState
  netCalls : Nat
  refreshCalls : Nat
  fieldLookups : Nat

/-- The email-path location step of `get_scholar_email_image` on the
cached person record.  New format (`raw_response` present): one field
lookup, no refresh.  Old format: one forced `get_scholar_detail`
refresh inside `try`; when the refresh raises, the re-read inside the
`try` is skipped (the exception is caught and the path stays empty);
when it succeeds the cache is re-read and the field lookup is retried
exactly once.  Returns (raw extraction result, detail cache afterwards,
refreshes, field lookups). -/
def emailLocateEmailPath (detail : DetailCache) (now : Nat) (id : String)
    (ups : Nat → UpstreamOutcome) (logId : String) (person : Official) :
    Option String × DetailCache × Nat × Nat :=
  match person.raw_response? with
  | some raw => (emailPathOfRaw raw, detail, 0, 1)
  | none =>
    let r := get_scholar_detail detail now id ups logId true
    match r.outcome with
    | Except.error _ => (none, r.cache, 1, 1)
    | Except.ok _ =>
      match lookupDetail r.cache id with
      | some f =>
        match f.data? with
        | some person2 =>
          match person2.raw_response? with
          | some raw => (emailPathOfRaw raw, r.cache, 1, 2)
          | none => (none, r.cache, 1, 2)
        | none => (none, r.cache, 1, 1)
      | none => (none, r.cache, 1, 1)

/-- The fetch-convert-cache tail of `get_scholar_email_image` (steps
3–6): fetch the image, convert to the white-background canonical PNG
when `convert_to_white_bg` is set, write `<id>.png`, remove the
`.no_email` marker, delete stale `.jpg`/`.jpeg`/`.gif`/`.webp` files,
and return in the requested format (JPEG derived on the fly, never
written). -/
def emailFetchPhase (st2 : EmailState) (now : Nat) (id path : String)
    (efetch : EmailFetchOutcome) (output_format : String)
    (convert_to_white_bg : Bool) (refreshes lookups : Nat) : EmailResult :=
  match fetch_email_image_from_aminer path efetch with
  | (Except.error e, n) =>
      ⟨Except.error e, st2, n, refreshes, lookups⟩
  | (Except.ok (raw_bytes, _), n) =>
      let cached :=
        if convert_to_white_bg then
          (convert_transparent_to_white_bg raw_bytes "PNG").1
        else raw_bytes
      let st3 :=
        deleteImages
          (removeEmailMarker (writeEmailImage st2 id ".png" ⟨now, cached⟩) id)
          id [".jpg", ".jpeg", ".gif", ".webp"]
      if pyUpper output_format = "JPEG" then
        ⟨Except.ok (convert_transparent_to_white_bg cached "JPEG"),
         st3, n, refreshes, lookups⟩
      else
        ⟨Except.ok (cached, "image/png"), st3, n, refreshes, lookups⟩

/-- The settings attributes `get_scholar_email_image` dereferences
(`settings.email_cache_dir` locates the namespace, already implicit in
`EmailState`; `settings.email_cache_ttl` is the TTL).  The deployed
`Settings` class declares neither attribute — see the C10 theorems —
so the resolver logic is verified as a function of this record. -/
structure EmailSettings where
  email_cache_ttl : Nat

/-- From `email_service.get_scholar_email_image(scholar_id, …,
force_refresh, output_format, convert_to_white_bg)`.  Control flow of
the source: valid `.no_email` marker → 404; missing cached detail →
404; unreadable cached detail → 500; email path located (with at most
one forced detail refresh); empty path → delete images, touch marker,
404; valid cached PNG → serve it (JPEG derived at read time); otherwise
fetch, convert, cache the canonical PNG, and serve.  File reads and
writes are modeled as succeeding. -/
def get_scholar_email_image (es : EmailSettings) (st : EmailState) (now : Nat)
    (id : String) (ups : Nat → UpstreamOutcome) (logId : String)
    (efetch : EmailFetchOutcome) (force : Bool) (output_format : String)
    (convert_to_white_bg : Bool) : EmailResult :=
  if !force && is_cache_valid (emailMarker st id) now es.email_cache_ttl then
    ⟨Except.error ⟨404, "No email available for this scholar"⟩, st, 0, 0, 0⟩
  else
    match lookupDetail st.detail id with
    | none =>
        ⟨Except.error
           ⟨404, "Scholar data not cached. Please fetch scholar detail first."⟩,
         st, 0, 0, 0⟩
    | some pf =>
      match pf.data? with
      | none =>
          ⟨Except.error ⟨500, "Failed to read cached scholar data"⟩, st, 0, 0, 0⟩
      | some person =>
        match emailLocateEmailPath st.detail now id ups logId person with
        | (path?, detail2, refreshes, lookups) =>
          let st2 : EmailState := { st with detail := detail2 }
          match truthyStr path? with
          | none =>
              ⟨Except.error ⟨404, "No email available for this scholar"⟩,
               touchEmailMarker
                 (deleteImages st2 id [".png", ".jpg", ".gif", ".webp"]) id now,
               0, refreshes, lookups⟩
          | some path =>
            match emailImage st2 id ".png" with
            | some f =>
              if !force && is_cache_valid (some f.mtime) now es.email_cache_ttl then
                if pyUpper output_format = "JPEG" then
                  ⟨Except.ok (convert_transparent_to_white_bg f.bytes "JPEG"),
                   st2, 0, refreshes, lookups⟩
                else
                  ⟨Except.ok (f.bytes, "image/png"), st2, 0, refreshes, lookups⟩
              else
                emailFetchPhase st2 now id path efetch output_format
                  convert_to_white_bg refreshes lookups
            | none =>
                emailFetchPhase st2 now id path efetch output_format
                  convert_to_white_bg refreshes lookups

/- ----------------------------------------------------------------
Email Resolver lemmas
---------------------------------------------------------------- -/

/-- A freshly written email image is the one found for its key. -/
theorem emailImage_writeEmailImage (st : EmailState) (id ext : String)
    (f : EmailFile) : emailImage (writeEmailImage st id ext f) id ext = some f := by
  simp [emailImage, writeEmailImage, List.find?]

/-- Deleting a set of extensions removes every matching key. -/
theorem emailImage_deleteImages_mem (st : EmailState) (id ext : String)
    (exts : List String) (h : ext ∈ exts) :
    emailImage (deleteImages st id exts) id ext = none := by
  unfold emailImage deleteImages
  induction st.images with
  | nil => simp
  | cons e t ih =>
    by_cases hq : e.1.1 = id ∧ e.1.2 ∈ exts
    · simpa [List.filter, hq] using ih
    · have hne : ¬ e.1 = (id, ext) := by
        intro hk
        exact hq ⟨by rw [hk], by rw [hk]; exact h⟩
      simpa [List.filter, hq, List.find?, hne] using ih
  -- (the surrounding record fields are untouched by `deleteImages`)

/-- Deleting other extensions leaves a key's lookup unchanged. -/
theorem emailImage_deleteImages_not_mem (st : EmailState) (id ext : String)
    (exts : List String) (h : ¬ ext ∈ exts) :
    emailImage (deleteImages st id exts) id ext = emailImage st id ext := by
  unfold emailImage deleteImages
  induction st.images with
  | nil => simp
  | cons e t ih =>
    obtain ⟨⟨k1, k2⟩, fv⟩ := e
    by_cases hk : k1 = id ∧ k2 = ext
    · obtain ⟨rfl, rfl⟩ := hk
      simp [List.filter, List.find?, h]
    · have hne : ¬ ((k1, k2) = (id, ext)) := by
        intro hcontra
        exact hk ⟨congrArg Prod.fst hcontra, congrArg Prod.snd hcontra⟩
      by_cases hq : k1 = id ∧ k2 ∈ exts
      · have hk2 : ¬ k2 = ext := fun hcontra => hk ⟨hq.1, hcontra⟩
        simpa [List.filter, hq, List.find?, hne, hk2] using ih
      · simpa [List.filter, hq, List.find?, hne] using ih

/-- The removed `.no_email` marker is gone. -/
theorem emailMarker_removeEmailMarker (st : EmailState) (id : String) :
    emailMarker (removeEmailMarker st id) id = none := by
  unfold emailMarker removeEmailMarker
  induction st.markers with
  | nil => simp
  | cons e t ih =>
    by_cases he : e.1 = id
    · simpa [List.filter, he] using ih
    · simpa [List.filter, he, List.find?] using ih

/-- The touched `.no_email` marker is found with the touch time. -/
theorem emailMarker_touchEmailMarker (st : EmailState) (id : String) (now : Nat) :
    emailMarker (touchEmailMarker st id now) id = some now := by
  simp [emailMarker, touchEmailMarker, List.find?]

/-- Image deletion does not change markers, marker operations do not
change images, and image writes do not change markers. -/
theorem email_state_frame (st : EmailState) (id ext : String) (now : Nat)
    (f : EmailFile) (exts : List String) :
    (deleteImages st id exts).markers = st.markers ∧
    (removeEmailMarker st id).images = st.images ∧
    (touchEmailMarker st id now).images = st.images ∧
    (writeEmailImage st id ext f).markers = st.markers := ⟨rfl, rfl, rfl, rfl⟩

/-- Conversion output of `convert_web_api_to_official_format` never
carries a `raw_response` key. -/
theorem convert_raw_response_none (w : AWebResponse) (logId : String)
    (base : Official)
    (h : convert_web_api_to_official_format w logId = Except.ok base) :
    base.raw_response? = none := by
  unfold convert_web_api_to_official_format at h
  split at h
  · split at h
    · cases h; rfl
    · cases h
  · cases h

/-- A forced detail refresh that returns a record has written it at
`now` under the scholar's key, and the record carries no
`raw_response`; a refresh that raises leaves the cache unchanged. -/
theorem detail_refresh_characterization (c : DetailCache) (now : Nat)
    (id : String) (ups : Nat → UpstreamOutcome) (logId : String) :
    (∀ d, (get_scholar_detail c now id ups logId true).outcome = Except.ok d →
       lookupDetail (get_scholar_detail c now id ups logId true).cache id =
         some ⟨now, some d⟩ ∧ d.raw_response? = none) ∧
    (∀ e, (get_scholar_detail c now id ups logId true).outcome = Except.error e →
       (get_scholar_detail c now id ups logId true).cache = c) := by
  unfold get_scholar_detail
  simp only []
  match fetch_aminer_web_api ups with
  | (Except.error e0, calls, slept) =>
    refine ⟨?_, ?_⟩ <;> intro d hd <;> simp at hd ⊢
  | (Except.ok w, calls, slept) =>
    unfold detailProcess
    by_cases hsig : aminerNotFoundSignal w = true
    · simp only [hsig, if_pos]
      refine ⟨?_, ?_⟩ <;> intro d hd <;> simp at hd ⊢
    · simp only [hsig, if_neg, Bool.not_eq_true] at *
      match hc : convert_web_api_to_official_format w logId with
      | Except.error e0 =>
        simp only [hsig, if_neg, Bool.not_eq_true, hc]
        refine ⟨?_, ?_⟩ <;> intro d hd <;> simp at hd ⊢
      | Except.ok base =>
        simp only [hsig, if_neg, Bool.not_eq_true, hc]
        constructor
        · intro d hd
          simp at hd
          constructor
          · rw [← hd]
            exact lookupDetail_writeDetail c id _
          · rw [← hd]
            exact convert_raw_response_none w logId base hc
        · intro e0 hd
          simp at hd

/-- On a valid new-format detail record with a truthy email path and no
usable cached PNG, the email run reduces to the fetch phase. -/
theorem email_run_reduces_to_fetch (es : EmailSettings) (st : EmailState)
    (now : Nat) (id logId : String) (ups : Nat → UpstreamOutcome)
    (efetch : EmailFetchOutcome) (pf : DetailFile) (person : Official)
    (raw : AWebResponse) (path fmt : String) (cwb : Bool)
    (hmk : is_cache_valid (emailMarker st id) now es.email_cache_ttl = false)
    (hpf : lookupDetail st.detail id = some pf)
    (hpd : pf.data? = some person)
    (hraw : person.raw_response? = some raw)
    (hpath : truthyStr (emailPathOfRaw raw) = some path)
    (hmiss : emailImage st id ".png" = none ∨
      ∃ f, emailImage st id ".png" = some f ∧
        is_cache_valid (some f.mtime) now es.email_cache_ttl = false) :
    get_scholar_email_image es st now id ups logId efetch false fmt cwb =
      emailFetchPhase st now id path efetch fmt cwb 0 1 := by
  rcases hmiss with hnone | ⟨f, hf, hv⟩
  · simp [get_scholar_email_image, hmk, hpf, hpd, emailLocateEmailPath, hraw,
      hpath, hnone]
  · simp [get_scholar_email_image, hmk, hpf, hpd, emailLocateEmailPath, hraw,
      hpath, hf, hv]

/-- C7: email canonical-format invariant.  Part 1 (read-time
derivation): on a valid cached PNG with output format JPEG, the
resolver returns exactly the white-background conversion of the cached
canonical bytes to JPEG, makes no network call and leaves the cache
state untouched — the JPEG bytes are never written.  Part 2 (canonical
write): on a cache miss with a successful download, the only image
written is `<id>.png` holding the white-background PNG conversion of
the downloaded bytes; stale `.jpg`/`.jpeg`/`.gif`/`.webp` files are
removed, the `.no_email` marker is cleared, and a JPEG response is
derived from the canonical bytes at return time only. -/
theorem email_canonical_png_format :
    (∀ (es : EmailSettings) (st : EmailState) (now : Nat) (id logId : String)
       (ups : Nat → UpstreamOutcome) (efetch : EmailFetchOutcome)
       (pf : DetailFile) (person : Official) (raw : AWebResponse)
       (path : String) (f : EmailFile),
       is_cache_valid (emailMarker st id) now es.email_cache_ttl = false →
       lookupDetail st.detail id = some pf →
       pf.data? = some person →
       person.raw_response? = some raw →
       truthyStr (emailPathOfRaw raw) = some path →
       emailImage st id ".png" = some f →
       is_cache_valid (some f.mtime) now es.email_cache_ttl = true →
       get_scholar_email_image es st now id ups logId efetch false "JPEG" true =
         ⟨Except.ok (convert_transparent_to_white_bg f.bytes "JPEG"),
          st, 0, 0, 1⟩)
    ∧
    (∀ (es : EmailSettings) (st : EmailState) (now : Nat) (id logId : String)
       (ups : Nat → UpstreamOutcome) (b : EmailBytes) (ct : String)
       (pf : DetailFile) (person : Official) (raw : AWebResponse)
       (path fmt : String),
       is_cache_valid (emailMarker st id) now es.email_cache_ttl = false →
       lookupDetail st.detail id = some pf →
       pf.data? = some person →
       person.raw_response? = some raw →
       truthyStr (emailPathOfRaw raw) = some path →
       (emailImage st id ".png" = none ∨
         ∃ f, emailImage st id ".png" = some f ∧
           is_cache_valid (some f.mtime) now es.email_cache_ttl = false) →
       pyStartsWith path "/magic" = true →
       ∀ r, r = get_scholar_email_image es st now id ups logId
           (EmailFetchOutcome.ok b ct) false fmt true →
       emailImage r.st id ".png" =
           some ⟨now, (convert_transparent_to_white_bg b "PNG").1⟩ ∧
       emailImage r.st id ".jpg" = none ∧
       emailImage r.st id ".jpeg" = none ∧
       emailImage r.st id ".gif" = none ∧
       emailImage r.st id ".webp" = none ∧
       emailMarker r.st id = none ∧
       r.outcome = Except.ok
         (if pyUpper fmt = "JPEG" then
            convert_transparent_to_white_bg
              ((convert_transparent_to_white_bg b "PNG").1) "JPEG"
          else ((convert_transparent_to_white_bg b "PNG").1, "image/png")) ∧
       r.netCalls = 1) := by
  constructor
  · intro es st now id logId ups efetch pf person raw path f
      hmk hpf hpd hraw hpath hf hv
    have hj : pyUpper "JPEG" = "JPEG" := by decide
    simp [get_scholar_email_image, hmk, hpf, hpd, emailLocateEmailPath, hraw,
      hpath, hf, hv, hj]
  · intro es st now id logId ups b ct pf person raw path fmt
      hmk hpf hpd hraw hpath hmiss hmagic r hr
    have hred := email_run_reduces_to_fetch es st now id logId ups
      (EmailFetchOutcome.ok b ct) pf person raw path fmt true
      hmk hpf hpd hraw hpath hmiss
    rw [hred] at hr
    have hphase : emailFetchPhase st now id path (EmailFetchOutcome.ok b ct)
        fmt true 0 1 =
        ⟨Except.ok
           (if pyUpper fmt = "JPEG" then
              convert_transparent_to_white_bg
                ((convert_transparent_to_white_bg b "PNG").1) "JPEG"
            else ((convert_transparent_to_white_bg b "PNG").1, "image/png")),
         deleteImages
           (removeEmailMarker
             (writeEmailImage st id ".png"
               ⟨now, (convert_transparent_to_white_bg b "PNG").1⟩) id)
           id [".jpg", ".jpeg", ".gif", ".webp"],
         1, 0, 1⟩ := by
      by_cases hj : pyUpper fmt = "JPEG" <;>
        simp [emailFetchPhase, fetch_email_image_from_aminer, hmagic, hj]
    rw [hphase] at hr
    subst hr
    refine ⟨?_, ?_, ?_, ?_, ?_, ?_, rfl, rfl⟩
    · rw [emailImage_deleteImages_not_mem _ _ _ _ (by decide)]
      exact emailImage_writeEmailImage _ _ _ _
    · exact emailImage_deleteImages_mem _ _ _ _ (by decide)
    · exact emailImage_deleteImages_mem _ _ _ _ (by decide)
    · exact emailImage_deleteImages_mem _ _ _ _ (by decide)
    · exact emailImage_deleteImages_mem _ _ _ _ (by decide)
    · exact emailMarker_removeEmailMarker _ _

/-- A cached detail record in the new format, carrying `raw_response`
with an email path. -/
def sampleOfficialRaw : Official :=
  { sampleOfficial with raw_response? := some sampleWeb }

/-- Email cache state with a valid cached canonical PNG for `S1`. -/
def emailStateHit : EmailState :=
  { detail := [("S1", ⟨0, some sampleOfficialRaw⟩)], markers := []
    images := [(("S1", ".png"), ⟨5, EmailBytes.encoded imgW ImgFormat.png⟩)] }

/-- Email cache state with the detail record but no cached image. -/
def emailStateMiss : EmailState :=
  { detail := [("S1", ⟨0, some sampleOfficialRaw⟩)], markers := [], images := [] }

/-- The concrete cache-miss email run used by the C7 witness. -/
def emailRunB : EmailResult :=
  get_scholar_email_image ⟨1000⟩ emailStateMiss 10 "S1"
    (fun _ => UpstreamOutcome.httpError) "L"
    (EmailFetchOutcome.ok (EmailBytes.encoded imgW ImgFormat.png) "image/png")
    false "PNG" true

/-- Witness for C7: the concrete cache-hit run derives JPEG at read
time without touching the state, and the concrete cache-miss run writes
only the canonical `.png`. -/
theorem email_canonical_png_format_witness :
    (get_scholar_email_image ⟨1000⟩ emailStateHit 10 "S1"
        (fun _ => UpstreamOutcome.httpError) "L" EmailFetchOutcome.httpError
        false "JPEG" true =
      ⟨Except.ok (convert_transparent_to_white_bg
          (EmailBytes.encoded imgW ImgFormat.png) "JPEG"),
       emailStateHit, 0, 0, 1⟩)
    ∧
    (emailImage emailRunB.st "S1" ".png" =
        some ⟨10, (convert_transparent_to_white_bg
            (EmailBytes.encoded imgW ImgFormat.png) "PNG").1⟩ ∧
     emailImage emailRunB.st "S1" ".jpg" = none ∧
     emailImage emailRunB.st "S1" ".jpeg" = none ∧
     emailImage emailRunB.st "S1" ".gif" = none ∧
     emailImage emailRunB.st "S1" ".webp" = none ∧
     emailMarker emailRunB.st "S1" = none ∧
     emailRunB.outcome = Except.ok
       (if pyUpper "PNG" = "JPEG" then
          convert_transparent_to_white_bg
            ((convert_transparent_to_white_bg
                (EmailBytes.encoded imgW ImgFormat.png) "PNG").1) "JPEG"
        else ((convert_transparent_to_white_bg
            (EmailBytes.encoded imgW ImgFormat.png) "PNG").1, "image/png")) ∧
     emailRunB.netCalls = 1) := by
  constructor
  · exact email_canonical_png_format.1 ⟨1000⟩ emailStateHit 10 "S1" "L"
      (fun _ => UpstreamOutcome.httpError) EmailFetchOutcome.httpError
      ⟨0, some sampleOfficialRaw⟩ sampleOfficialRaw sampleWeb "/magic?q=1"
      ⟨5, EmailBytes.encoded imgW ImgFormat.png⟩
      rfl rfl rfl rfl rfl rfl (by decide)
  · exact email_canonical_png_format.2 ⟨1000⟩ emailStateMiss 10 "S1" "L"
      (fun _ => UpstreamOutcome.httpError)
      (EmailBytes.encoded imgW ImgFormat.png) "image/png"
      ⟨0, some sampleOfficialRaw⟩ sampleOfficialRaw sampleWeb "/magic?q=1" "PNG"
      rfl rfl rfl rfl rfl (Or.inl rfl) (by decide) emailRunB rfl

/-- On an old-format record (no `raw_response`), the locate step runs
exactly one forced refresh and ends with an empty path: when the
refresh succeeds the re-written record still has no `raw_response`, so
the retried lookup (the second of two) fails; when the refresh raises,
the retry is skipped (one lookup). -/
theorem emailLocate_old_format (detail : DetailCache) (now : Nat)
    (id logId : String) (ups : Nat → UpstreamOutcome) (person : Official)
    (hraw : person.raw_response? = none) :
    emailLocateEmailPath detail now id ups logId person =
      (none, (get_scholar_detail detail now id ups logId true).cache, 1,
       match (get_scholar_detail detail now id ups logId true).outcome with
       | Except.ok _ => 2
       | Except.error _ => 1) := by
  unfold emailLocateEmailPath
  rw [hraw]
  cases ho : (get_scholar_detail detail now id ups logId true).outcome with
  | error e => simp [ho]
  | ok d =>
    obtain ⟨hlk, hdraw⟩ :=
      (detail_refresh_characterization detail now id ups logId).1 d ho
    simp [ho, hlk, hdraw]

/-- C8: email dependency healing.  When the cached detail record for
the scholar exists and is readable but lacks the `raw_response` field
that locates the email-image endpoint, the resolver performs exactly
one forced detail refresh and at most one retried field lookup (exactly
one retry when the refresh returns — the refreshed record still lacks
the field); the call then writes the `.no_email` negative marker,
deletes any cached email images, fails with 404, and makes no
email-image network call. -/
theorem email_dependency_healing (es : EmailSettings) (st : EmailState)
    (now : Nat) (id logId fmt : String) (ups : Nat → UpstreamOutcome)
    (efetch : EmailFetchOutcome) (cwb : Bool) (pf : DetailFile)
    (person : Official)
    (hmk : is_cache_valid (emailMarker st id) now es.email_cache_ttl = false)
    (hpf : lookupDetail st.detail id = some pf)
    (hpd : pf.data? = some person)
    (hraw : person.raw_response? = none) :
    ∀ r, r = get_scholar_email_image es st now id ups logId efetch false fmt cwb →
    r.refreshCalls = 1 ∧ 1 ≤ r.fieldLookups ∧ r.fieldLookups ≤ 2 ∧
    r.outcome = Except.error ⟨404, "No email available for this scholar"⟩ ∧
    emailMarker r.st id = some now ∧
    emailImage r.st id ".png" = none ∧
    emailImage r.st id ".jpg" = none ∧
    emailImage r.st id ".gif" = none ∧
    emailImage r.st id ".webp" = none ∧
    r.netCalls = 0 := by
  intro r hr
  subst hr
  have hloc := emailLocate_old_format st.detail now id logId ups person hraw
  simp only [get_scholar_email_image, hmk, hpf, hpd, Bool.not_false,
    Bool.true_and, Bool.false_eq_true, if_false, hloc, truthyStr]
  refine ⟨trivial, ?_, ?_, trivial, ?_, ?_, ?_, ?_, ?_, trivial⟩
  · cases (get_scholar_detail st.detail now id ups logId true).outcome <;> simp
  · cases (get_scholar_detail st.detail now id ups logId true).outcome <;> simp
  · exact emailMarker_touchEmailMarker _ _ _
  · exact emailImage_deleteImages_mem _ _ _ _ (by decide)
  · exact emailImage_deleteImages_mem _ _ _ _ (by decide)
  · exact emailImage_deleteImages_mem _ _ _ _ (by decide)
  · exact emailImage_deleteImages_mem _ _ _ _ (by decide)

/-- Email cache state whose detail record is in the old format. -/
def emailStateOld : EmailState :=
  { detail := [("S1", ⟨0, some sampleOfficial⟩)], markers := [], images := [] }

/-- The concrete old-format email run used by the C8 witness. -/
def emailRunOld : EmailResult :=
  get_scholar_email_image ⟨1000⟩ emailStateOld 10 "S1"
    (fun _ => UpstreamOutcome.httpError) "L" EmailFetchOutcome.httpError
    false "PNG" true

/-- Witness for C8: a concrete old-format record with a failing
upstream gives exactly one refresh, the marker, and 404. -/
theorem email_dependency_healing_witness :
    emailRunOld.refreshCalls = 1 ∧ 1 ≤ emailRunOld.fieldLookups ∧
    emailRunOld.fieldLookups ≤ 2 ∧
    emailRunOld.outcome =
      Except.error ⟨404, "No email available for this scholar"⟩ ∧
    emailMarker emailRunOld.st "S1" = some 10 ∧
    emailImage emailRunOld.st "S1" ".png" = none ∧
    emailImage emailRunOld.st "S1" ".jpg" = none ∧
    emailImage emailRunOld.st "S1" ".gif" = none ∧
    emailImage emailRunOld.st "S1" ".webp" = none ∧
    emailRunOld.netCalls = 0 :=
  email_dependency_healing ⟨1000⟩ emailStateOld 10 "S1" "L" "PNG"
    (fun _ => UpstreamOutcome.httpError) EmailFetchOutcome.httpError true
    ⟨0, some sampleOfficial⟩ sampleOfficial rfl rfl rfl rfl emailRunOld rfl

/- ----------------------------------------------------------------
Deployed configuration (`config.py`) and the email route
(`routes/aminer.py`)
---------------------------------------------------------------- -/

/-- The field names declared on `config.Settings` (a pydantic
`BaseSettings` class). -/
def settingsFieldNames : List String :=
  ["host", "port", "cache_dir", "aminer_cache_ttl", "avatar_cache_ttl",
   "firecrawl_api_url", "firecrawl_timeout", "http_timeout", "cors_origins",
   "log_level"]

/-- The `@property` names declared on `config.Settings`. -/
def settingsPropertyNames : List String :=
  ["cors_origins_list", "aminer_cache_dir", "avatar_cache_dir"]

/-- Python attribute resolution on the `settings` singleton: defined
iff the name is a declared field or property (anything else raises
`AttributeError`). -/
def settingsHasAttr (name : String) : Bool :=
  settingsFieldNames.contains name || settingsPropertyNames.contains name

/-- The integer-valued settings attributes and their declared defaults
(`port`, the two TTLs); `none` for any other name. -/
def settingsNatAttr? (name : String) : Option Nat :=
  if name = "port" then some 37803
  else if name = "aminer_cache_ttl" then some 1296000
  else if name = "avatar_cache_ttl" then some 31536000
  else none

/-- A failure surfaced from the email resolver as deployed: either a
`fastapi.HTTPException` or a Python `AttributeError` escaping to the
framework. -/
inductive PyError where
  | http (e : HErr)
  | attributeError (name : String)
  deriving Repr, DecidableEq

/-- Result of `get_scholar_email_image` as deployed against the real
`Settings` object. -/
structure DeployedEmailResult where
  outcome : Except PyError (EmailBytes × String)
  st : EmailState
  netCalls : Nat
  refreshCalls : Nat

/-- `email_service.get_scholar_email_image` composed with the deployed
`config.settings`: its first two cache-related statements evaluate
`settings.email_cache_dir` (line 206) and `settings.email_cache_ttl`
(line 207).  When an attribute is undefined the `AttributeError` is
raised there, before any cache read, cache write, or network call, so
the state comes back unchanged with zero effect counters. -/
def get_scholar_email_image_deployed (st : EmailState) (now : Nat)
    (id : String) (ups : Nat → UpstreamOutcome) (logId : String)
    (efetch : EmailFetchOutcome) (force : Bool) (output_format : String)
    (convert_to_white_bg : Bool) : DeployedEmailResult :=
  if settingsHasAttr "email_cache_dir" then
    match settingsNatAttr? "email_cache_ttl" with
    | some ttl =>
        let r := get_scholar_email_image ⟨ttl⟩ st now id ups logId efetch
          force output_format convert_to_white_bg
        ⟨r.outcome.mapError PyError.http, r.st, r.netCalls, r.refreshCalls⟩
    | none =>
        ⟨Except.error (PyError.attributeError "email_cache_ttl"), st, 0, 0⟩
  else
    ⟨Except.error (PyError.attributeError "email_cache_dir"), st, 0, 0⟩

/-- From `routes/aminer.py get_scholar_email_endpoint`: header
validation (400), format validation (400, with `JPG` normalized to
`JPEG`), then the service call; an `HTTPException` is re-raised as-is
and any other exception (such as the `AttributeError`) becomes a 500
response.  A `200` response corresponds to `Except.ok`. -/
def get_scholar_email_endpoint (authorization x_signature x_timestamp : Option String)
    (format : String) (st : EmailState) (now : Nat) (id : String)
    (ups : Nat → UpstreamOutcome) (logId : String)
    (efetch : EmailFetchOutcome) (force : Bool) :
    Except HErr (EmailBytes × String) :=
  match authorization with
  | none => Except.error ⟨400, "Authorization header is required"⟩
  | some _ =>
  match x_signature with
  | none => Except.error ⟨400, "X-Signature header is required"⟩
  | some _ =>
  match x_timestamp with
  | none => Except.error ⟨400, "X-Timestamp header is required"⟩
  | some _ =>
  let output_format := pyUpper format
  if ¬ (output_format = "PNG" ∨ output_format = "JPG" ∨ output_format = "JPEG") then
    Except.error ⟨400, "Invalid format. Supported formats: png, jpg"⟩
  else
    let output_format := if output_format = "JPG" then "JPEG" else output_format
    match (get_scholar_email_image_deployed st now id ups logId efetch force
        output_format true).outcome with
    | Except.ok v => Except.ok v
    | Except.error (PyError.http e) => Except.error e
    | Except.error (PyError.attributeError _) =>
        Except.error ⟨500, "Internal server error"⟩

/-- Whether an `Except` is a success. -/
def exceptIsOk {ε α : Type} : Except ε α → Bool
  | Except.ok _ => true
  | Except.error _ => false

/-- C10: the deployed `Settings` class declares neither
`email_cache_dir` nor `email_cache_ttl`, so for every input the
deployed `get_scholar_email_image` fails with `AttributeError` on its
first settings access — before any cache read, cache write, detail
refresh, or network call (state unchanged, all effect counters zero) —
and consequently the `/email` endpoint never returns a 200 success
response. -/
theorem email_always_fails_missing_settings :
    settingsHasAttr "email_cache_dir" = false ∧
    settingsHasAttr "email_cache_ttl" = false ∧
    (∀ (st : EmailState) (now : Nat) (id : String)
       (ups : Nat → UpstreamOutcome) (logId : String)
       (efetch : EmailFetchOutcome) (force : Bool) (fmt : String) (cwb : Bool),
       get_scholar_email_image_deployed st now id ups logId efetch force fmt cwb =
         ⟨Except.error (PyError.attributeError "email_cache_dir"), st, 0, 0⟩) ∧
    (∀ (authorization x_signature x_timestamp : Option String) (format : String)
       (st : EmailState) (now : Nat) (id : String)
       (ups : Nat → UpstreamOutcome) (logId : String)
       (efetch : EmailFetchOutcome) (force : Bool),
       exceptIsOk (get_scholar_email_endpoint authorization x_signature
         x_timestamp format st now id ups logId efetch force) = false) := by
  have hdir : settingsHasAttr "email_cache_dir" = false := by decide
  have httl : settingsHasAttr "email_cache_ttl" = false := by decide
  refine ⟨hdir, httl, ?_, ?_⟩
  · intro st now id ups logId efetch force fmt cwb
    simp [get_scholar_email_image_deployed, hdir]
  · intro authorization x_signature x_timestamp format st now id ups logId
      efetch force
    match authorization with
    | none => rfl
    | some a =>
      match x_signature with
      | none => rfl
      | some s =>
        match x_timestamp with
        | none => rfl
        | some t =>
          simp only [get_scholar_email_endpoint]
          by_cases hfmt : pyUpper format = "PNG" ∨ pyUpper format = "JPG" ∨
              pyUpper format = "JPEG"
          · simp [hfmt, get_scholar_email_image_deployed, hdir, exceptIsOk]
          · simp [hfmt, exceptIsOk]
